import Mathlib

/-!
Verification of the django-htmx-cbv middleware and view classes.

The repository ships two parallel packages, `django_htmx_cbv` and
`django_htmx_cbvs`, each with middleware (`HtmxVaryMiddleware`,
`HttpVerbViewMiddleware`, `HtmxPartialTemplateMiddleware`,
`HtmxMessageMiddleware`) and, in `django_htmx_cbv`, view mixins
(`views.py`).  This file embeds the request/response transformations of
those classes as pure Lean functions and proves the specified properties.

Host-framework objects are modelled shallowly:
  * a `QDict` is Django's `QueryDict`: an ordered multi-valued mapping,
    `get` returning the last value for a key (as `QueryDict.__getitem__`
    does) and truthiness being non-emptiness;
  * a `Request` carries the fields the middleware reads: the HTTP method,
    `request.GET`, `request.POST`, the raw body, the content type, the
    truthiness of `request.htmx` (django-htmx sets it to the test
    `headers.get("HX-Request") == "true"`), the presence of the
    `HX-Request` header, and `request.htmx.target` (django-htmx's
    `HtmxDetails.target` returns the `HX-Target` header value, or `None`
    when the header is absent or empty, regardless of whether the request
    is an HTMX request);
  * a `Response` carries a status code, a body and a header list where a
    name occurs at most once (Django header assignment overwrites);
  * rendering (`render_to_string`, form-field `__str__`) and urlencoded
    body parsing (`QueryDict(request.body)`) are delegated to the host
    framework, so the embedded functions take them as function parameters;
    a small concrete parser and renderer instantiate them in witnesses.
-/

namespace DjangoHtmxCbv

/-- Django `QueryDict`: an ordered list of key/value pairs. -/
structure QDict where
  pairs : List (String × String)
deriving Repr, DecidableEq

/-- The empty `QueryDict()`. -/
def QDict.empty : QDict := ⟨[]⟩

/-- `QueryDict.get(key)`: the last value listed for the key, if any
(Django's `MultiValueDict.__getitem__` returns the last element of the
value list). -/
def QDict.get (q : QDict) (k : String) : Option String :=
  ((q.pairs.filter (fun p => p.1 == k)).getLast?).map (fun p => p.2)

/-- Python truthiness of a `QueryDict`: non-empty. -/
def QDict.isEmpty (q : QDict) : Bool := q.pairs.isEmpty

/-- Python truthiness of an optional string (`None` and `''` are falsy);
returns the string when truthy, mirroring a walrus-guarded branch. -/
def pyTruthy : Option String → Option String
  | none => none
  | some s => if s.isEmpty then none else some s

/-- The slice of a Django `HttpRequest` that the middleware reads. -/
structure Request where
  method : String
  query : QDict
  post : QDict
  body : String
  contentType : String
  hxRequest : Bool
  hasHxRequestHeader : Bool
  hxTarget : Option String
deriving Repr, DecidableEq

/-- The slice of a Django `HttpResponse` that the middleware touches. -/
structure Response where
  status : Nat
  body : String
  headers : List (String × String)
deriving Repr, DecidableEq

/-- `response.get(name)` / `name in response.headers`: first (and only)
occurrence of the header name. -/
def Response.getHeader (r : Response) (k : String) : Option String :=
  (r.headers.find? (fun p => p.1 == k)).map (fun p => p.2)

/-- `response[name] = value`: overwrite the header. -/
def Response.setHeader (r : Response) (k v : String) : Response :=
  { r with headers := (k, v) :: r.headers.filter (fun p => p.1 != k) }

theorem getHeader_setHeader_self (r : Response) (k v : String) :
    (r.setHeader k v).getHeader k = some v := by
  simp [Response.setHeader, Response.getHeader, List.find?]

theorem getHeader_setHeader_ne (r : Response) (k v n : String) (h : n ≠ k) :
    (r.setHeader k v).getHeader n = r.getHeader n := by
  simp only [Response.setHeader, Response.getHeader]
  have hk : ((k, v).1 == n) = false := by
    simp [beq_iff_eq]
    exact fun hkn => h hkn.symm
  rw [List.find?]
  simp only [show ((fun p => p.1 == n) (k, v)) = false from hk]
  congr 1
  induction r.headers with
  | nil => rfl
  | cons p t ih =>
    by_cases hp : p.1 = k
    · have : (p.1 != k) = false := by simp [hp]
      simp only [List.filter, this]
      rw [List.find?]
      have : (p.1 == n) = false := by
        simp [beq_iff_eq, hp]
        exact fun hnk => h hnk.symm
      simp only [show ((fun q => q.1 == n) p) = false from this]
      exact ih
    · have : (p.1 != k) = true := by simp [hp]
      simp only [List.filter, this]
      rw [List.find?, List.find?]
      by_cases hn : p.1 = n
      · simp [hn]
      · have : (p.1 == n) = false := by simp [hn]
        simp only [show ((fun q => q.1 == n) p) = false from this]
        exact ih

/-! ### HtmxVaryMiddleware (`django_htmx_cbv/middleware.py` lines 24-28;
identically `django_htmx_cbvs/middleware.py` lines 80-84)

`__call__` gets the inner response and, when `request.htmx` is truthy,
sets `response['Vary'] = 'HX-Request'`. -/

/-- `HtmxVaryMiddleware.__call__` applied to the response the inner
handler produced. -/
def htmxVaryMiddleware (req : Request) (resp : Response) : Response :=
  if req.hxRequest then resp.setHeader "Vary" "HX-Request" else resp

/-- C7: for every HTMX request, `HtmxVaryMiddleware` sets the response's
`Vary` header to `HX-Request` and changes nothing else (status, body, all
other headers unchanged); for every non-HTMX request the response is
returned entirely unchanged. -/
theorem vary_middleware_sets_only_vary (req : Request) (resp : Response) :
    (req.hxRequest = true →
      (htmxVaryMiddleware req resp).status = resp.status ∧
      (htmxVaryMiddleware req resp).body = resp.body ∧
      (htmxVaryMiddleware req resp).getHeader "Vary" = some "HX-Request" ∧
      ∀ n : String, n ≠ "Vary" →
        (htmxVaryMiddleware req resp).getHeader n = resp.getHeader n) ∧
    (req.hxRequest = false → htmxVaryMiddleware req resp = resp) := by
  constructor
  · intro h
    simp only [htmxVaryMiddleware, h, if_true]
    refine ⟨rfl, rfl, getHeader_setHeader_self resp _ _, ?_⟩
    intro n hn
    exact getHeader_setHeader_ne resp _ _ n hn
  · intro h
    simp [htmxVaryMiddleware, h]

/-- A concrete HTMX request used to instantiate theorems. -/
def reqHtmx : Request :=
  { method := "GET", query := QDict.empty, post := QDict.empty,
    body := "", contentType := "", hxRequest := true,
    hasHxRequestHeader := true, hxTarget := none }

/-- A concrete response with one unrelated header. -/
def respPlain : Response :=
  { status := 200, body := "ok", headers := [("X-Frame", "DENY")] }

/-- Witness for C7 at a concrete HTMX request: the `Vary` header is set
and the unrelated `X-Frame` header survives. -/
theorem vary_middleware_sets_only_vary_witness :
    (htmxVaryMiddleware reqHtmx respPlain).getHeader "Vary" =
      some "HX-Request" ∧
    (htmxVaryMiddleware reqHtmx respPlain).getHeader "X-Frame" =
      respPlain.getHeader "X-Frame" := by
  have h := vary_middleware_sets_only_vary reqHtmx respPlain
  have h1 := h.1 (by decide)
  exact ⟨h1.2.2.1, h1.2.2.2 "X-Frame" (by decide)⟩

/-! ### HtmxPartialTemplateMiddleware (`django_htmx_cbv/middleware.py`
lines 64-94; identically `django_htmx_cbvs/middleware.py` lines 36-65,
which inlines the `'main'` default that `django_htmx_cbv` reads from
`settings.DEFAULT_PARTIAL_NAME`). -/

/-- A Django `TemplateResponse`: a response plus its template name list. -/
structure TemplateResponse where
  resp : Response
  templateName : List String
deriving Repr, DecidableEq

/-- The default block name: `getattr(settings, 'DEFAULT_PARTIAL_NAME',
'main')` with the settings default. -/
def defaultBlockName : String := "main"

/-- Python `'#' in s` for the single character `#`. -/
def hashIn (s : String) : Bool := s.toList.contains '#'

/-- Python `s.strip('#')`: remove leading and trailing `#` characters. -/
def pyStripHash (s : String) : String :=
  String.mk
    (((s.toList.dropWhile (fun c => c = '#')).reverse.dropWhile
      (fun c => c = '#')).reverse)

/-- `django_htmx.http.HttpResponseClientRedirect(url)`: a 200 response
whose `HX-Redirect` header is the redirect target (modelled from the
django-htmx library, which is a dependency, not part of this repository).
-/
def httpResponseClientRedirect (url : String) : Response :=
  { status := 200, body := "", headers := [("HX-Redirect", url)] }

/-- `HtmxPartialTemplateMiddleware.__call__`: when `request.htmx` is
truthy and the inner response has status 302, replace it with
`HttpResponseClientRedirect(response.url)`; `response.url` of a redirect
is its `Location` header. -/
def htmxTemplateMiddlewareCall (req : Request) (resp : Response) :
    Response :=
  if req.hxRequest ∧ resp.status = 302 then
    httpResponseClientRedirect ((resp.getHeader "Location").getD "")
  else resp

/-- The block name `process_template_response` picks: `HX-Retarget`
stripped of surrounding `#` when that header is truthy, else a truthy
`HX-Partial-Name`, else `request.htmx.target or default`. -/
def pickBlockName (req : Request) (tr : TemplateResponse) : String :=
  match pyTruthy (tr.resp.getHeader "HX-Retarget") with
  | some retargetId => pyStripHash retargetId
  | none =>
    match pyTruthy (tr.resp.getHeader "HX-Partial-Name") with
    | some blockName => blockName
    | none =>
      match pyTruthy req.hxTarget with
      | some target => target
      | none => defaultBlockName

/-- `HtmxPartialTemplateMiddleware.process_template_response`: on an HTMX
request, rewrite each template name that does not contain `#` to
`name#blockName`. -/
def processTemplateResponse (req : Request) (tr : TemplateResponse) :
    TemplateResponse :=
  if req.hxRequest then
    { tr with
      templateName := tr.templateName.map (fun tn =>
        if hashIn tn then tn else tn ++ "#" ++ pickBlockName req tr) }
  else tr

/-- The block name the claim describes, by its priority rules: the
`HX-Retarget` value with `#` characters stripped; otherwise the
`HX-Partial-Name` value; otherwise the request's HTMX target element id;
otherwise the default `'main'` (a rule applies when its source is present
and non-empty). -/
def claimBlockName (req : Request) (tr : TemplateResponse) : String :=
  ((pyTruthy (tr.resp.getHeader "HX-Retarget")).map pyStripHash).getD
    ((pyTruthy (tr.resp.getHeader "HX-Partial-Name")).getD
      ((pyTruthy req.hxTarget).getD "main"))

/-- C1: for every HTMX request with a template response, each template
name not already containing `#` is rewritten to
`templateName#blockName` (names containing `#` are unchanged), the block
name chosen by the claim's priority rules; for every non-HTMX request the
template name list is unchanged. -/
theorem template_names_rewritten (req : Request) (tr : TemplateResponse) :
    (req.hxRequest = true →
      (processTemplateResponse req tr).templateName =
        tr.templateName.map (fun tn =>
          if hashIn tn then tn
          else tn ++ "#" ++ claimBlockName req tr)) ∧
    (req.hxRequest = false →
      (processTemplateResponse req tr).templateName = tr.templateName) := by
  have hname : pickBlockName req tr = claimBlockName req tr := by
    unfold pickBlockName claimBlockName defaultBlockName
    cases pyTruthy (tr.resp.getHeader "HX-Retarget") with
    | none =>
      cases pyTruthy (tr.resp.getHeader "HX-Partial-Name") with
      | none => cases pyTruthy req.hxTarget <;> rfl
      | some _ => rfl
    | some _ => rfl
  constructor
  · intro h
    simp [processTemplateResponse, h, hname]
  · intro h
    simp [processTemplateResponse, h]

/-- A concrete template response with an `HX-Retarget` header. -/
def trRetarget : TemplateResponse :=
  { resp := { status := 200, body := "",
              headers := [("HX-Retarget", "#sidebar")] },
    templateName := ["app/page.html", "app/other.html#hero"] }

/-- Witness for C1: with `HX-Retarget: #sidebar` the plain template name
gains `#sidebar` and the name already holding `#` is untouched. -/
theorem template_names_rewritten_witness :
    (processTemplateResponse reqHtmx trRetarget).templateName =
      ["app/page.html#sidebar", "app/other.html#hero"] := by
  have h := (template_names_rewritten reqHtmx trRetarget).1 (by decide)
  rw [h]
  decide

/-- C6: for every HTMX request whose inner response has status 302,
`HtmxPartialTemplateMiddleware.__call__` replaces the response with an
`HttpResponseClientRedirect` targeting the original redirect URL; any
other response passes through unchanged. -/
theorem redirect_converted_for_htmx (req : Request) (resp : Response) :
    (req.hxRequest = true → resp.status = 302 →
      htmxTemplateMiddlewareCall req resp =
        httpResponseClientRedirect ((resp.getHeader "Location").getD "")) ∧
    (req.hxRequest = false → htmxTemplateMiddlewareCall req resp = resp) ∧
    (resp.status ≠ 302 → htmxTemplateMiddlewareCall req resp = resp) := by
  refine ⟨fun h hs => ?_, fun h => ?_, fun hs => ?_⟩
  · simp [htmxTemplateMiddlewareCall, h, hs]
  · simp [htmxTemplateMiddlewareCall, h]
  · simp [htmxTemplateMiddlewareCall, hs]

/-- A concrete 302 redirect response. -/
def respRedirect : Response :=
  { status := 302, body := "", headers := [("Location", "/next/")] }

/-- Witness for C6: a 302 under HTMX becomes a 200 client redirect to the
original `Location`. -/
theorem redirect_converted_for_htmx_witness :
    htmxTemplateMiddlewareCall reqHtmx respRedirect =
      httpResponseClientRedirect "/next/" := by
  have h := (redirect_converted_for_htmx reqHtmx respRedirect).1
    (by decide) (by decide)
  rw [h]
  decide

/-! ### HttpVerbViewMiddleware (`django_htmx_cbv/middleware.py` lines
49-61 and `django_htmx_cbvs/middleware.py` lines 28-33)

`process_view` mutates the request: it sets `request.QUERY` and
`request.BODY` and possibly overrides `request.method`.  The result is
modelled as a record; `BODY` is an `Option` because the `django_htmx_cbv`
version leaves the attribute unset on some branches.  Parsing the raw
body (`QueryDict(request.body)`) is the host framework's; both versions
are parameterised over it. -/

/-- The attributes `process_view` leaves on the request. -/
structure ProcessedRequest where
  method : String
  QUERY : QDict
  BODY : Option QDict
deriving Repr, DecidableEq

/-- Python `s.upper()` on ASCII method names. -/
def strUpper (s : String) : String := String.mk (s.toList.map Char.toUpper)

/-- The `_method` override shared by both versions:
`request.POST.get('_method') or request.GET.get('_method')` guarded by a
truthiness test. -/
def methodOverride (req : Request) : Option String :=
  match pyTruthy (req.post.get "_method") with
  | some m => some m
  | none => pyTruthy (req.query.get "_method")

/-- `HttpVerbViewMiddleware.process_view` of `django_htmx_cbv`: `QUERY`
is a copy of `request.GET`; `BODY` is the empty `QueryDict` for GET and
DELETE, a copy of `request.POST` for POST, and `QueryDict(request.body)`
for PUT and PATCH when the content type is urlencoded (and is left unset
otherwise); then, when `request.htmx` is falsy and a truthy `_method`
exists, `request.method` becomes its uppercase. -/
def processView (parseBody : String → QDict) (req : Request) :
    ProcessedRequest :=
  let bodyAttr : Option QDict :=
    if req.method = "GET" ∨ req.method = "DELETE" then
      some QDict.empty
    else if req.method = "POST" then
      some req.post
    else if req.method = "PUT" ∨ req.method = "PATCH" then
      if req.contentType = "application/x-www-form-urlencoded" then
        some (parseBody req.body)
      else none
    else none
  let method :=
    if req.hxRequest then req.method
    else
      match methodOverride req with
      | some m => strUpper m
      | none => req.method
  { method := method, QUERY := req.query, BODY := bodyAttr }

/-- `HttpVerbViewMiddleware.process_view` of `django_htmx_cbvs`:
`request.BODY = request.POST.copy() or QueryDict(request.body)` for every
verb, and the same `_method` override. -/
def processViewS (parseBody : String → QDict) (req : Request) :
    ProcessedRequest :=
  let bodyAttr : Option QDict :=
    some (if req.post.isEmpty then parseBody req.body else req.post)
  let method :=
    if req.hxRequest then req.method
    else
      match methodOverride req with
      | some m => strUpper m
      | none => req.method
  { method := method, QUERY := req.query, BODY := bodyAttr }

/-- Split a character list at every occurrence of a separator. -/
def splitOnChar (c : Char) : List Char → List Char → List (List Char)
  | [], acc => [acc.reverse]
  | x :: xs, acc =>
    if x = c then acc.reverse :: splitOnChar c xs []
    else splitOnChar c xs (x :: acc)

/-- Turn one `key=value` fragment into a pair, splitting at the first
`=`. -/
def parsePair (part : List Char) : String × String :=
  let k := part.takeWhile (fun x => x != '=')
  match part.drop k.length with
  | [] => (String.mk k, "")
  | _ :: v => (String.mk k, String.mk v)

/-- A concrete urlencoded parser, standing in for `QueryDict(bytes)` in
witnesses and counterexamples: split on `&`, then each pair on the first
`=` (faithful for bodies without percent escapes). -/
def parseUrlEncoded (s : String) : QDict :=
  if s.isEmpty then QDict.empty
  else ⟨(splitOnChar '&' s.toList []).map parsePair⟩

/-- A PUT request whose body is JSON, not urlencoded. -/
def reqPutJson : Request :=
  { method := "PUT", query := QDict.empty, post := QDict.empty,
    body := "\x7b\"int\": 1\x7d", contentType := "application/json",
    hxRequest := true, hasHxRequestHeader := true, hxTarget := none }

/-- Counterexample to C2: for a PUT request whose content type is not
`application/x-www-form-urlencoded`, `process_view` leaves
`request.BODY` unset, so `request.BODY` is not defined for every PUT
request reaching a view. -/
theorem body_unset_for_json_put :
    (processView parseUrlEncoded reqPutJson).BODY = none := by
  decide

/-- C2 (amended): `request.QUERY` is always a copy of the URL query
parameters, and `request.BODY` is the empty `QueryDict` for GET and
DELETE, a copy of `request.POST` for POST, the `QueryDict` parsed from
the raw body for PUT and PATCH with urlencoded content type, and left
unset for PUT and PATCH with any other content type. -/
theorem body_defined_per_verb (parseBody : String → QDict)
    (req : Request) :
    (processView parseBody req).QUERY = req.query ∧
    (req.method = "GET" ∨ req.method = "DELETE" →
      (processView parseBody req).BODY = some QDict.empty) ∧
    (req.method = "POST" →
      (processView parseBody req).BODY = some req.post) ∧
    (req.method = "PUT" ∨ req.method = "PATCH" →
      (req.contentType = "application/x-www-form-urlencoded" →
        (processView parseBody req).BODY = some (parseBody req.body)) ∧
      (req.contentType ≠ "application/x-www-form-urlencoded" →
        (processView parseBody req).BODY = none)) := by
  refine ⟨rfl, fun h => ?_, fun h => ?_, fun h => ⟨fun hc => ?_, fun hc => ?_⟩⟩
  · simp [processView, h]
  · have hng : ¬(req.method = "GET" ∨ req.method = "DELETE") := by
      rw [h]; simp
    simp [processView, hng, h]
  · have hng : ¬(req.method = "GET" ∨ req.method = "DELETE") := by
      rcases h with h | h <;> rw [h] <;> simp
    have hnp : ¬(req.method = "POST") := by
      rcases h with h | h <;> rw [h] <;> simp
    simp [processView, hng, hnp, h, hc]
  · have hng : ¬(req.method = "GET" ∨ req.method = "DELETE") := by
      rcases h with h | h <;> rw [h] <;> simp
    have hnp : ¬(req.method = "POST") := by
      rcases h with h | h <;> rw [h] <;> simp
    simp [processView, hng, hnp, h, hc]

/-- A PUT request with an urlencoded body. -/
def reqPutForm : Request :=
  { method := "PUT", query := QDict.empty, post := QDict.empty,
    body := "int=1&str=1", contentType := "application/x-www-form-urlencoded",
    hxRequest := true, hasHxRequestHeader := true, hxTarget := none }

/-- Witness for the amended C2: an urlencoded PUT request gets its body
parsed into `request.BODY`. -/
theorem body_defined_per_verb_witness :
    (processView parseUrlEncoded reqPutForm).BODY =
      some ⟨[("int", "1"), ("str", "1")]⟩ := by
  have h := ((body_defined_per_verb parseUrlEncoded reqPutForm).2.2.2
    (Or.inl rfl)).1 rfl
  rw [h]
  decide

/-- C4: a non-HTMX request whose POST (taking precedence) or GET
parameters hold a truthy `_method` gets `request.method` replaced by the
uppercased value; an HTMX request, or one with no truthy `_method`,
keeps its method. -/
theorem method_override_applies (parseBody : String → QDict)
    (req : Request) :
    (req.hxRequest = true →
      (processView parseBody req).method = req.method) ∧
    (req.hxRequest = false →
      (∀ m, pyTruthy (req.post.get "_method") = some m →
        (processView parseBody req).method = strUpper m) ∧
      (pyTruthy (req.post.get "_method") = none →
        (∀ m, pyTruthy (req.query.get "_method") = some m →
          (processView parseBody req).method = strUpper m) ∧
        (pyTruthy (req.query.get "_method") = none →
          (processView parseBody req).method = req.method))) := by
  refine ⟨fun h => ?_, fun h => ⟨fun m hm => ?_, fun hp => ⟨fun m hm => ?_, fun hq => ?_⟩⟩⟩
  · simp [processView, h]
  · simp [processView, h, methodOverride, hm]
  · simp [processView, h, methodOverride, hp, hm]
  · simp [processView, h, methodOverride, hp, hq]

/-- A browser form POST that tunnels a DELETE via `_method`. -/
def reqMethodTunnel : Request :=
  { method := "POST", query := QDict.empty,
    post := ⟨[("_method", "delete"), ("int", "1")]⟩,
    body := "_method=delete&int=1",
    contentType := "application/x-www-form-urlencoded",
    hxRequest := false, hasHxRequestHeader := false, hxTarget := none }

/-- Witness for C4: the tunnelled `_method=delete` rewrites the method to
`DELETE`. -/
theorem method_override_applies_witness :
    (processView parseUrlEncoded reqMethodTunnel).method = "DELETE" := by
  have h := ((method_override_applies parseUrlEncoded reqMethodTunnel).2
    (by decide)).1 "delete" (by decide)
  rw [h]
  decide

/-! ### C9: the two `process_view` bodies compared

Django populates `request.POST` from the body only for POST requests
with a form content type; for every other request it is the empty
`QueryDict`.  `djangoPost` states that invariant, which any request
produced by the framework satisfies. -/

/-- Content types for which Django parses `request.POST`. -/
def isFormContentType (ct : String) : Bool :=
  ct = "application/x-www-form-urlencoded" ∨ ct = "multipart/form-data"

/-- The host framework's invariant on `request.POST`. -/
def djangoPost (parseBody : String → QDict) (req : Request) : Prop :=
  req.post =
    if req.method = "POST" ∧ isFormContentType req.contentType then
      parseBody req.body
    else QDict.empty

/-- A DELETE request carrying an urlencoded body. -/
def reqDeleteBody : Request :=
  { method := "DELETE", query := QDict.empty, post := QDict.empty,
    body := "a=1", contentType := "application/x-www-form-urlencoded",
    hxRequest := true, hasHxRequestHeader := true, hxTarget := none }

/-- Counterexample to C9: on a DELETE request with body `a=1` the
`django_htmx_cbv` version sets `request.BODY` to the empty `QueryDict`
while the `django_htmx_cbvs` version parses the body, so the two
implementations do not assign equal `request.BODY` values for every
request. -/
theorem verb_middlewares_differ_on_delete_body :
    (processView parseUrlEncoded reqDeleteBody).BODY ≠
      (processViewS parseUrlEncoded reqDeleteBody).BODY := by
  decide

/-- C9 (amended): the two `process_view` implementations always assign
equal `request.QUERY` (and method); `request.BODY` agrees for form POST
requests and urlencoded PUT/PATCH requests, agrees on GET/DELETE exactly
when the raw body parses to an empty `QueryDict`, and for non-urlencoded
PUT/PATCH the `django_htmx_cbv` version leaves `BODY` unset while the
`django_htmx_cbvs` version sets it. -/
theorem verb_middlewares_agree_amended (parseBody : String → QDict)
    (req : Request) (hpost : djangoPost parseBody req) :
    (processView parseBody req).QUERY =
      (processViewS parseBody req).QUERY ∧
    (processView parseBody req).method =
      (processViewS parseBody req).method ∧
    (req.method = "POST" → isFormContentType req.contentType = true →
      (processView parseBody req).BODY =
        (processViewS parseBody req).BODY) ∧
    (req.method = "PUT" ∨ req.method = "PATCH" →
      req.contentType = "application/x-www-form-urlencoded" →
      (processView parseBody req).BODY =
        (processViewS parseBody req).BODY) ∧
    (req.method = "GET" ∨ req.method = "DELETE" →
      ((processView parseBody req).BODY =
          (processViewS parseBody req).BODY ↔
        parseBody req.body = QDict.empty)) ∧
    (req.method = "PUT" ∨ req.method = "PATCH" →
      req.contentType ≠ "application/x-www-form-urlencoded" →
      (processView parseBody req).BODY = none ∧
      (processViewS parseBody req).BODY ≠ none) := by
  unfold djangoPost at hpost
  refine ⟨rfl, rfl, fun hm hc => ?_, fun hm hc => ?_, fun hm => ?_, fun hm hc => ?_⟩
  · have hpp : req.post = parseBody req.body := by
      rw [hpost]; simp [hm, hc]
    have hng : ¬(req.method = "GET" ∨ req.method = "DELETE") := by
      rw [hm]; simp
    simp only [processView, processViewS, hng, hm, if_false, if_true,
      ite_true, ite_false, if_neg hng, if_pos rfl]
    by_cases he : req.post.isEmpty
    · simp [he, ← hpp]
    · simp [he]
  · have hpe : req.post = QDict.empty := by
      rw [hpost]
      have : ¬(req.method = "POST" ∧ isFormContentType req.contentType) := by
        rcases hm with h | h <;> rw [h] <;> simp
      simp [this]
    have hng : ¬(req.method = "GET" ∨ req.method = "DELETE") := by
      rcases hm with h | h <;> rw [h] <;> simp
    have hnp : ¬(req.method = "POST") := by
      rcases hm with h | h <;> rw [h] <;> simp
    have hee : req.post.isEmpty = true := by rw [hpe]; rfl
    simp [processView, processViewS, hng, hnp, hm, hc, hee]
  · have hpe : req.post = QDict.empty := by
      rw [hpost]
      have : ¬(req.method = "POST" ∧ isFormContentType req.contentType) := by
        rcases hm with h | h <;> rw [h] <;> simp
      simp [this]
    have hee : req.post.isEmpty = true := by rw [hpe]; rfl
    simp only [processView, processViewS, hm, if_pos hm, hee, if_true,
      ite_true]
    constructor
    · intro h
      have := Option.some.inj h
      exact this.symm
    · intro h
      rw [h]
  · have hng : ¬(req.method = "GET" ∨ req.method = "DELETE") := by
      rcases hm with h | h <;> rw [h] <;> simp
    have hnp : ¬(req.method = "POST") := by
      rcases hm with h | h <;> rw [h] <;> simp
    simp [processView, processViewS, hng, hnp, hm, hc]

/-- A form POST request satisfying the framework invariant. -/
def reqPostForm : Request :=
  { method := "POST", query := QDict.empty, post := ⟨[("a", "1")]⟩,
    body := "a=1", contentType := "application/x-www-form-urlencoded",
    hxRequest := false, hasHxRequestHeader := false, hxTarget := none }

/-- Witness for the amended C9: on a form POST both versions agree on
`BODY`. -/
theorem verb_middlewares_agree_amended_witness :
    (processView parseUrlEncoded reqPostForm).BODY =
      (processViewS parseUrlEncoded reqPostForm).BODY := by
  exact (verb_middlewares_agree_amended parseUrlEncoded reqPostForm
    (by unfold djangoPost; decide)).2.2.1 rfl (by decide)

/-! ### HtmxMessageMiddleware (`django_htmx_cbv/middleware.py` lines
129-156 and `django_htmx_cbvs/middleware.py` lines 111-138)

Both versions run the same message step behind three early-return
guards, evaluated in different orders.  `get_messages(request)` is a
storage whose truthiness is having messages; messages are modelled as a
list, and `render_to_string` of the messages template as a `render`
parameter.  The 204 replacement builds `HttpResponse(html, status=200)`,
a fresh response carrying only the rendered HTML (its default headers
are not modelled). -/

/-- `HtmxMessageMiddleware.__call__` of `django_htmx_cbv`: guards in the
source's order `HX-Redirect`, missing `HX-Request`, 3xx; then the
message step. -/
def htmxMessageMiddleware (render : List String → String) (req : Request)
    (msgs : List String) (resp : Response) : Response :=
  if (resp.getHeader "HX-Redirect").isSome then resp
  else if !req.hasHxRequestHeader then resp
  else if 300 ≤ resp.status ∧ resp.status < 400 then resp
  else if msgs.isEmpty then resp
  else
    let html := render msgs
    if resp.status = 204 then { status := 200, body := html, headers := [] }
    else { resp with body := resp.body ++ html }

/-- `HtmxMessageMiddleware.__call__` of `django_htmx_cbvs`: guards in
the source's order missing `HX-Request`, 3xx, `HX-Redirect`; the same
message step. -/
def htmxMessageMiddlewareS (render : List String → String) (req : Request)
    (msgs : List String) (resp : Response) : Response :=
  if !req.hasHxRequestHeader then resp
  else if 300 ≤ resp.status ∧ resp.status < 400 then resp
  else if (resp.getHeader "HX-Redirect").isSome then resp
  else if msgs.isEmpty then resp
  else
    let html := render msgs
    if resp.status = 204 then { status := 200, body := html, headers := [] }
    else { resp with body := resp.body ++ html }

/-- The early-return guard of the `django_htmx_cbv` version, transcribed
with its conditions in source order. -/
def earlySkipCbv (hasRedirect hasRequestHeader : Bool) (status : Nat) :
    Bool :=
  if hasRedirect then true
  else if !hasRequestHeader then true
  else if 300 ≤ status ∧ status < 400 then true
  else false

/-- The early-return guard of the `django_htmx_cbvs` version, transcribed
with its conditions in source order. -/
def earlySkipCbvs (hasRedirect hasRequestHeader : Bool) (status : Nat) :
    Bool :=
  if !hasRequestHeader then true
  else if 300 ≤ status ∧ status < 400 then true
  else if hasRedirect then true
  else false

/-- C8: the two `HtmxMessageMiddleware` implementations skip message
injection under logically equivalent guards — for every combination of
`HX-Redirect` presence, `HX-Request` presence and status code the guards
agree — and consequently the two middleware bodies are extensionally
equal. -/
theorem message_guards_equivalent :
    (∀ (hasRedirect hasRequestHeader : Bool) (status : Nat),
      earlySkipCbv hasRedirect hasRequestHeader status =
        earlySkipCbvs hasRedirect hasRequestHeader status) ∧
    (∀ (render : List String → String) (req : Request)
        (msgs : List String) (resp : Response),
      htmxMessageMiddleware render req msgs resp =
        htmxMessageMiddlewareS render req msgs resp) := by
  constructor
  · intro hasRedirect hasRequestHeader status
    cases hasRedirect <;> cases hasRequestHeader <;>
      simp [earlySkipCbv, earlySkipCbvs]
  · intro render req msgs resp
    unfold htmxMessageMiddleware htmxMessageMiddlewareS
    by_cases hr : (resp.getHeader "HX-Redirect").isSome <;>
      by_cases hh : req.hasHxRequestHeader <;>
      by_cases hs : 300 ≤ resp.status ∧ resp.status < 400 <;>
      simp [hr, hh, hs]

/-- C3: when the request carries `HX-Request`, the status is outside
`[300, 400)` and there is no `HX-Redirect`, pending messages are rendered
and appended to the body — a 204 becoming a fresh 200 whose body is
exactly the rendered HTML; with `HX-Redirect` present, `HX-Request`
absent, or a 3xx status, the response is unchanged. -/
theorem messages_injected (render : List String → String) (req : Request)
    (msgs : List String) (resp : Response) :
    ((resp.getHeader "HX-Redirect").isSome = true →
      htmxMessageMiddleware render req msgs resp = resp) ∧
    (req.hasHxRequestHeader = false →
      htmxMessageMiddleware render req msgs resp = resp) ∧
    (300 ≤ resp.status → resp.status < 400 →
      htmxMessageMiddleware render req msgs resp = resp) ∧
    (req.hasHxRequestHeader = true →
      (resp.getHeader "HX-Redirect").isSome = false →
      ¬(300 ≤ resp.status ∧ resp.status < 400) →
      msgs ≠ [] →
      (resp.status = 204 →
        htmxMessageMiddleware render req msgs resp =
          { status := 200, body := render msgs, headers := [] }) ∧
      (resp.status ≠ 204 →
        htmxMessageMiddleware render req msgs resp =
          { resp with body := resp.body ++ render msgs })) := by
  refine ⟨fun h => ?_, fun h => ?_, fun h1 h2 => ?_,
    fun hh hr hs hm => ⟨fun h204 => ?_, fun h204 => ?_⟩⟩
  · simp [htmxMessageMiddleware, h]
  · simp [htmxMessageMiddleware, h]
  · unfold htmxMessageMiddleware
    by_cases hr : (resp.getHeader "HX-Redirect").isSome <;>
      simp [hr, h1, h2]
  · have hme : msgs.isEmpty = false := by
      cases msgs with
      | nil => exact absurd rfl hm
      | cons a l => rfl
    simp [htmxMessageMiddleware, hh, hr, hs, hme, h204]
  · have hme : msgs.isEmpty = false := by
      cases msgs with
      | nil => exact absurd rfl hm
      | cons a l => rfl
    simp [htmxMessageMiddleware, hh, hr, hs, hme, h204]

/-- A concrete renderer standing in for `render_to_string` of the
messages template. -/
def renderJoin (msgs : List String) : String := String.join msgs

/-- A concrete 204 No Content response. -/
def respNoContent : Response := { status := 204, body := "", headers := [] }

/-- Witness for C3: a 204 response on an HTMX request with one pending
message becomes a 200 whose body is the rendered message HTML. -/
theorem messages_injected_witness :
    htmxMessageMiddleware renderJoin reqHtmx ["saved"] respNoContent =
      { status := 200, body := renderJoin ["saved"], headers := [] } := by
  exact ((messages_injected renderJoin reqHtmx ["saved"] respNoContent).2.2.2
    rfl (by decide) (by decide) (by decide)).1 rfl

/-! ### View classes (`django_htmx_cbv/views.py`)

Synchronously raised framework exceptions are modelled with `Except`;
model objects are identified by `Nat` ids. -/

/-- The framework exception types the views raise. -/
inductive DjangoExc
  | improperlyConfigured
  | permissionDenied
  | badRequest
deriving Repr, DecidableEq

/-- `ProcessHyperFormView.delete` (views.py lines 154-160): the base
implementation unconditionally raises `ImproperlyConfigured`. -/
def processHyperFormViewDelete : Except DjangoExc Response :=
  .error .improperlyConfigured

/-- `SingleObjectPermissionMixin.has_permission` (views.py lines
186-192): the base implementation unconditionally raises
`ImproperlyConfigured`. -/
def singleObjectHasPermission : Except DjangoExc Bool :=
  .error .improperlyConfigured

/-- `HtmxChainedFormView.get_options` (views.py lines 278-286): the base
implementation unconditionally raises `ImproperlyConfigured`. -/
def htmxChainedFormViewGetOptions : Except DjangoExc (List String) :=
  .error .improperlyConfigured

/-- `SingleObjectPermissionMixin.setup` (views.py lines 173-184):
`get_object()` raising `AttributeError` means a create view
(`object = None`, no permission check); otherwise the object is stored
and `has_permission` — possibly the raising base implementation, hence
`Except`-valued — gates access, `PermissionDenied` being raised when it
returns `False`. -/
def singleObjectSetup (hasPermission : Nat → Except DjangoExc Bool)
    (getObject : Option Nat) : Except DjangoExc (Option Nat) :=
  match getObject with
  | none => .ok none
  | some obj =>
    match hasPermission obj with
    | .error e => .error e
    | .ok true => .ok (some obj)
    | .ok false => .error .permissionDenied

/-- Counterexample to C5: `setup` raises `PermissionDenied` when a
subclass-implemented `has_permission` returns `False` on an existing
object — a circumstance with no omitted override — so the listed
exception types are not raised only on omitted required overrides. -/
theorem permission_denied_without_omitted_override :
    singleObjectSetup (fun _ => Except.ok false) (some 1) =
      Except.error DjangoExc.permissionDenied := by
  rfl

/-- C5 (amended): the base implementations of
`ProcessHyperFormView.delete`, `SingleObjectPermissionMixin.has_permission`
and `HtmxChainedFormView.get_options` each raise `ImproperlyConfigured`
before producing any response; but the framework exception types are
raised in further circumstances too: `setup` raises `PermissionDenied`
whenever an implemented `has_permission` returns `False`, and passes the
object through whenever it returns `True`. -/
theorem required_override_raises
    (hasPermission : Nat → Except DjangoExc Bool) (obj : Nat) :
    processHyperFormViewDelete = .error .improperlyConfigured ∧
    singleObjectHasPermission = .error .improperlyConfigured ∧
    htmxChainedFormViewGetOptions = .error .improperlyConfigured ∧
    (hasPermission obj = .ok false →
      singleObjectSetup hasPermission (some obj) =
        .error .permissionDenied) ∧
    (hasPermission obj = .ok true →
      singleObjectSetup hasPermission (some obj) = .ok (some obj)) := by
  refine ⟨rfl, rfl, rfl, fun h => ?_, fun h => ?_⟩
  · simp [singleObjectSetup, h]
  · simp [singleObjectSetup, h]

/-- Witness for the amended C5 at a concrete permission function that
denies object 1 and allows object 2. -/
theorem required_override_raises_witness :
    singleObjectSetup (fun o => Except.ok (o == 2)) (some 1) =
        Except.error DjangoExc.permissionDenied ∧
    singleObjectSetup (fun o => Except.ok (o == 2)) (some 2) =
        Except.ok (some 2) := by
  constructor
  · exact (required_override_raises (fun o => Except.ok (o == 2)) 1).2.2.2.1
      rfl
  · exact (required_override_raises (fun o => Except.ok (o == 2)) 2).2.2.2.2
      rfl

/-! ### HtmxChainedFormView.get (`django_htmx_cbv/views.py` lines
288-324)

A form field is its name plus whether it has choices;
`str(form[field_name])` is a `renderField` parameter, and `options` is
the key list of the dictionary an implemented `get_options()` returns. -/

/-- A base form field: name and whether `hasattr(field, 'choices')`. -/
structure FieldSpec where
  name : String
  hasChoices : Bool
deriving Repr, DecidableEq

/-- The `form_field_ids` list of `get` (lines 305-310): `id_<name>` for
each base field with choices, plus `id_choices`. -/
def chainedFormFieldIds (baseFields : List FieldSpec) : List String :=
  (baseFields.filter (fun f => f.hasChoices)).map (fun f => "id_" ++ f.name)
    ++ ["id_choices"]

/-- `HtmxChainedFormView.get_form_kwargs` (lines 288-300): the `options`
key is added only when `request.htmx` is truthy. -/
def chainedGetFormKwargs (options : List String) (req : Request) :
    Option (List String) :=
  if req.hxRequest then some options else none

/-- `HtmxChainedFormView.get` (lines 302-324): when
`request.htmx.target` is one of the form field ids, instantiate the form
and answer with the concatenated rendered fields listed in
`kwargs['options']` — a lookup that raises `KeyError` when the kwargs
hold no `options` key — otherwise answer 204 No Content. -/
def chainedFormViewGet (renderField : String → String)
    (baseFields : List FieldSpec) (options : List String)
    (req : Request) : Except String Response :=
  let formFieldIds := chainedFormFieldIds baseFields
  let targetHit :=
    match req.hxTarget with
    | some t => formFieldIds.contains t
    | none => false
  if targetHit then
    match chainedGetFormKwargs options req with
    | some opts =>
      .ok { status := 200, body := String.join (opts.map renderField),
            headers := [] }
    | none => .error "KeyError"
  else
    .ok { status := 204, body := "", headers := [] }

/-- A request carrying `HX-Target: id_color` without `HX-Request`. -/
def reqTargetNoHx : Request :=
  { method := "GET", query := QDict.empty, post := QDict.empty,
    body := "", contentType := "", hxRequest := false,
    hasHxRequestHeader := false, hxTarget := some "id_color" }

/-- Counterexample to C10: a GET request whose `HX-Target` names a
choice-field id but which carries no `HX-Request` header makes `get`
raise a `KeyError` on `kwargs['options']` instead of returning a
response. -/
theorem chained_get_raises_without_hx_request :
    chainedFormViewGet (fun n => n) [⟨"color", true⟩] ["color"]
      reqTargetNoHx = Except.error "KeyError" := by
  rfl

/-- C10 (amended): `get` returns the concatenated rendered option fields
when the request is an HTMX request whose target is one of the
choice-field element ids, returns an empty 204 when the target misses
the id list or is absent — `request.htmx.target` itself being safe to
read on non-HTMX requests — but raises a `KeyError` when a non-HTMX
request's `HX-Target` header names a choice-field id. -/
theorem chained_get_characterized (renderField : String → String)
    (baseFields : List FieldSpec) (options : List String)
    (req : Request) :
    (req.hxRequest = true → ∀ t, req.hxTarget = some t →
      (chainedFormFieldIds baseFields).contains t = true →
      chainedFormViewGet renderField baseFields options req =
        .ok { status := 200,
              body := String.join (options.map renderField),
              headers := [] }) ∧
    (req.hxTarget = none →
      chainedFormViewGet renderField baseFields options req =
        .ok { status := 204, body := "", headers := [] }) ∧
    (∀ t, req.hxTarget = some t →
      (chainedFormFieldIds baseFields).contains t = false →
      chainedFormViewGet renderField baseFields options req =
        .ok { status := 204, body := "", headers := [] }) ∧
    (req.hxRequest = false → ∀ t, req.hxTarget = some t →
      (chainedFormFieldIds baseFields).contains t = true →
      chainedFormViewGet renderField baseFields options req =
        Except.error "KeyError") := by
  refine ⟨fun hx t ht hc => ?_, fun ht => ?_, fun t ht hc => ?_,
    fun hx t ht hc => ?_⟩
  · unfold chainedFormViewGet
    simp only [ht, hc, chainedGetFormKwargs, hx]
    simp
  · unfold chainedFormViewGet
    simp only [ht]
    simp
  · unfold chainedFormViewGet
    simp only [ht, hc]
    simp
  · unfold chainedFormViewGet
    simp only [ht, hc, chainedGetFormKwargs, hx]
    simp

/-- A genuine HTMX request targeting `id_color`. -/
def reqTargetHx : Request :=
  { method := "GET", query := QDict.empty, post := QDict.empty,
    body := "", contentType := "", hxRequest := true,
    hasHxRequestHeader := true, hxTarget := some "id_color" }

/-- Witness for the amended C10: the HTMX request targeting `id_color`
receives the rendered `color` field. -/
theorem chained_get_characterized_witness :
    chainedFormViewGet (fun n => "<select " ++ n ++ "/>")
      [⟨"color", true⟩] ["color"] reqTargetHx =
      Except.ok { status := 200, body := "<select color/>",
                  headers := [] } := by
  have h := (chained_get_characterized (fun n => "<select " ++ n ++ "/>")
    [⟨"color", true⟩] ["color"] reqTargetHx).1 rfl "id_color" rfl (by rfl)
  rw [h]
  rfl

end DjangoHtmxCbv
